import Mathlib

/-!
Verification development for the HTTP request orchestration layer of the
Erold CLI (src/lib/api.js).  The JavaScript code is shallowly embedded:
JavaScript values are modelled by `JsValue`, the outcome of each `fetch`
attempt is an `AttemptOutcome` supplied by the environment, and the
`request` retry loop is a recursive Lean function over those outcomes.
-/

namespace ApiSpec

/-- JavaScript values as far as the API client manipulates them:
`undefined`, `null`, booleans, numbers, strings, arrays and plain objects
(field lists in insertion order). -/
inductive JsValue where
  | undefined : JsValue
  | null : JsValue
  | bool (b : Bool) : JsValue
  | num (n : Int) : JsValue
  | str (s : String) : JsValue
  | arr (elems : List JsValue) : JsValue
  | obj (fields : List (String × JsValue)) : JsValue

/-- Test for the JavaScript value `undefined`. -/
def JsValue.isUndefined : JsValue → Bool
  | .undefined => true
  | _ => false

/-- JavaScript truthiness of a value, as used by `||` and `if`. -/
def jsTruthy : JsValue → Bool
  | .undefined => false
  | .null => false
  | .bool b => b
  | .num n => n != 0
  | .str s => s != ""
  | .arr _ => true
  | .obj _ => true

/-- Property lookup on an object field list; a later duplicate key wins,
matching JavaScript object semantics. -/
def lookupLast (fs : List (String × JsValue)) (k : String) : Option JsValue :=
  fs.foldl (fun acc p => if p.1 = k then some p.2 else acc) none

/-- Optional-chained property access `v?.k`: `undefined` unless `v` is an
object with field `k`. -/
def JsValue.getOpt : JsValue → String → JsValue
  | .obj fs, k => (lookupLast fs k).getD .undefined
  | _, _ => .undefined

mutual

/-- JavaScript string coercion `String(v)`. -/
def jsToString : JsValue → String
  | .undefined => "undefined"
  | .null => "null"
  | .bool b => cond b "true" "false"
  | .num n => toString n
  | .str s => s
  | .arr xs => String.intercalate "," (jsToStringElems xs)
  | .obj _ => "[object Object]"

/-- Array element coercion inside `Array.prototype.toString`:
`null` and `undefined` elements become the empty string. -/
def jsToStringElems : List JsValue → List String
  | [] => []
  | v :: vs =>
    (match v with
     | .null => ""
     | .undefined => ""
     | w => jsToString w) :: jsToStringElems vs

end

/-- Lowercase hex digit, as produced by JSON.stringify control escapes. -/
def hexDigitLower (n : Nat) : Char :=
  if n < 10 then Char.ofNat (48 + n) else Char.ofNat (87 + n)

/-- JSON string escaping of one character (JSON.stringify). -/
def jsonEscapeChar (c : Char) : String :=
  if c = '"' then "\\\""
  else if c = '\\' then "\\\\"
  else if c = '\n' then "\\n"
  else if c = '\r' then "\\r"
  else if c = '\t' then "\\t"
  else if c = '\x08' then "\\b"
  else if c = '\x0c' then "\\f"
  else if c.toNat < 0x20 then
    "\\u00" ++ String.mk [hexDigitLower (c.toNat / 16), hexDigitLower (c.toNat % 16)]
  else String.singleton c

/-- A JSON string literal for `s` (JSON.stringify on strings). -/
def jsonQuote (s : String) : String :=
  "\"" ++ String.join (s.data.map jsonEscapeChar) ++ "\""

mutual

/-- JSON.stringify: `none` models the `undefined` result (for `undefined`
input); object fields whose value serializes to `undefined` are dropped,
array elements that do become `null`. -/
def jsonStringify : JsValue → Option String
  | .undefined => none
  | .null => some "null"
  | .bool b => some (cond b "true" "false")
  | .num n => some (toString n)
  | .str s => some (jsonQuote s)
  | .arr xs => some ("[" ++ String.intercalate "," (jsonStringifyElems xs) ++ "]")
  | .obj fs => some ("\x7b" ++ String.intercalate "," (jsonStringifyFields fs) ++ "\x7d")

/-- Serialization of array elements for JSON.stringify. -/
def jsonStringifyElems : List JsValue → List String
  | [] => []
  | v :: vs => (jsonStringify v).getD "null" :: jsonStringifyElems vs

/-- Serialization of object fields for JSON.stringify. -/
def jsonStringifyFields : List (String × JsValue) → List String
  | [] => []
  | (k, v) :: fs =>
    match jsonStringify v with
    | none => jsonStringifyFields fs
    | some sv => (jsonQuote k ++ ":" ++ sv) :: jsonStringifyFields fs

end

/-! URLSearchParams serialization (application/x-www-form-urlencoded):
spaces become plus signs, bytes outside the unreserved set are
percent-encoded with uppercase hex over the UTF-8 encoding. -/

/-- Uppercase hex digit for percent-encoding. -/
def hexDigitUpper (n : Nat) : Char :=
  if n < 10 then Char.ofNat (48 + n) else Char.ofNat (55 + n)

/-- UTF-8 bytes of a scalar value. -/
def utf8Bytes (c : Char) : List Nat :=
  let n := c.toNat
  if n < 0x80 then [n]
  else if n < 0x800 then [0xC0 + n / 0x40, 0x80 + n % 0x40]
  else if n < 0x10000 then
    [0xE0 + n / 0x1000, 0x80 + (n / 0x40) % 0x40, 0x80 + n % 0x40]
  else
    [0xF0 + n / 0x40000, 0x80 + (n / 0x1000) % 0x40,
     0x80 + (n / 0x40) % 0x40, 0x80 + n % 0x40]

/-- Percent-encoding of one byte. -/
def percentByte (b : Nat) : String :=
  "%" ++ String.mk [hexDigitUpper (b / 16), hexDigitUpper (b % 16)]

/-- Characters URLSearchParams leaves unescaped: alphanumerics and
asterisk, hyphen, period, underscore. -/
def formUnreserved (c : Char) : Bool :=
  c.isAlphanum || c = '*' || c = '-' || c = '.' || c = '_'

/-- Form-urlencoding of one character. -/
def formEncodeChar (c : Char) : String :=
  if c = ' ' then "+"
  else if formUnreserved c then String.singleton c
  else String.join ((utf8Bytes c).map percentByte)

/-- Form-urlencoding of a string. -/
def formEncode (s : String) : String :=
  String.join (s.data.map formEncodeChar)

/-! The configuration snapshot read per request.  An empty string models a
missing or empty value (both are falsy in the JavaScript checks). -/

/-- Result of `config.getApiConfig()` plus `config.get('tenant')`. -/
structure ApiConfig where
  apiKey : String
  apiUrl : String
  tenant : String

/-- Constant DEFAULT_TIMEOUT from api.js (30 seconds). -/
def DEFAULT_TIMEOUT : Nat := 30000

/-- Constant MAX_RETRIES from api.js. -/
def MAX_RETRIES : Nat := 3

/-- Constant RETRY_DELAY from api.js (1 second). -/
def RETRY_DELAY : Nat := 1000

/-- The ApiError class: message, numeric status code, optional details
(defaulting to `null`). -/
structure ApiError where
  message : String
  statusCode : Nat
  details : JsValue

/-- ApiError construction at a site that passes `data?.error?.details`:
a JavaScript default parameter replaces an `undefined` argument by the
declared default `null`. -/
def mkApiError (message : String) (statusCode : Nat) (details : JsValue) : ApiError :=
  ⟨message, statusCode, if details.isUndefined then .null else details⟩

/-- A thrown JavaScript error: either an ApiError instance or a raw error
(network TypeError, AbortError, JSON SyntaxError) with its `name` and
`message` properties. -/
inductive JsErr where
  | api (e : ApiError) : JsErr
  | raw (name : String) (message : String) : JsErr

/-- The `name` property of a thrown error. -/
def JsErr.errorName : JsErr → String
  | .api _ => "ApiError"
  | .raw n _ => n

/-- A resolved fetch Response as the client observes it: status, the
content-type and retry-after headers, the result of `.json()` (which can
itself reject with a parse error) and the result of `.text()`. -/
structure Response where
  status : Nat
  contentType : Option String
  retryAfter : Option String
  jsonResult : Except String JsValue
  textResult : String

/-- Outcome of one `fetch` call: either the promise rejects (network
failure, or AbortError when the signal fired) or it resolves to a
response. -/
inductive AttemptOutcome where
  | fetchError (name : String) (message : String) : AttemptOutcome
  | response (r : Response) : AttemptOutcome

/-- Character-list prefix test (structural, so that the kernel can
evaluate it). -/
def isPrefixChars : List Char → List Char → Bool
  | [], _ => true
  | _ :: _, [] => false
  | a :: as, b :: bs => a == b && isPrefixChars as bs

/-- Substring containment on character lists, the semantics of
`String.prototype.includes`. -/
def containsSub : List Char → List Char → Bool
  | [], needle => needle.isEmpty
  | h :: t, needle => isPrefixChars needle (h :: t) || containsSub t needle

/-- The content-type check `contentType && contentType.includes('application/json')`. -/
def contentTypeIsJson : Option String → Bool
  | none => false
  | some s => containsSub s.data "application/json".data

/-- Body parsing (lines 76-82 of api.js): `.json()` when the content type
declares JSON (a parse rejection surfaces as a raw SyntaxError), `.text()`
otherwise. -/
def parsedBody (r : Response) : Except JsErr JsValue :=
  if contentTypeIsJson r.contentType then
    match r.jsonResult with
    | .ok v => .ok v
    | .error m => .error (.raw "SyntaxError" m)
  else .ok (.str r.textResult)

/-- The retry-after wait used in the 429 message:
`response.headers.get('retry-after') || 60`. -/
def retryAfterValue (r : Response) : String :=
  match r.retryAfter with
  | some s => if s = "" then "60" else s
  | none => "60"

/-- The non-2xx message chain
`data?.error?.message || data?.message || 'HTTP <status>'`. -/
def httpErrorMessage (data : JsValue) (status : Nat) : String :=
  let m1 := (data.getOpt "error").getOpt "message"
  if jsTruthy m1 then jsToString m1
  else
    let m2 := data.getOpt "message"
    if jsTruthy m2 then jsToString m2
    else "HTTP " ++ toString status

/-- Envelope unwrapping (line 100):
`data?.data !== undefined ? data.data : data`. -/
def unwrap (data : JsValue) : JsValue :=
  if (data.getOpt "data").isUndefined then data else data.getOpt "data"

/-- One iteration of the try block (lines 71-100): parse the body, map 429
to a rate-limit ApiError, map other non-2xx statuses to a classified
ApiError, unwrap and return the payload on 2xx. -/
def attemptStep (out : AttemptOutcome) : Except JsErr JsValue :=
  match out with
  | .fetchError name msg => .error (.raw name msg)
  | .response r =>
    match parsedBody r with
    | .error e => .error e
    | .ok data =>
      if r.status = 429 then
        .error (.api ⟨"Rate limited. Try again in " ++ retryAfterValue r ++ " seconds.",
                      429, .null⟩)
      else if !(200 ≤ r.status && r.status ≤ 299) then
        .error (.api (mkApiError (httpErrorMessage data r.status) r.status
                        ((data.getOpt "error").getOpt "details")))
      else
        .ok (unwrap data)

/-- The catch-clause guard of line 106:
`error instanceof ApiError && 400 <= statusCode < 500 && statusCode != 429`. -/
def clientErrorNot429 : JsErr → Bool
  | .api e => 400 ≤ e.statusCode && e.statusCode < 500 && e.statusCode != 429
  | .raw _ _ => false

/-- The post-loop translation (lines 125-132): an ApiError is rethrown as
is; any raw last error becomes
`ApiError(message || 'Request failed after retries', statusCode || 500)`
(a raw error has no statusCode, so the code is 500). -/
def finalize : JsErr → JsErr
  | .api e => .api e
  | .raw _ msg =>
    .api ⟨if msg = "" then "Request failed after retries" else msg, 500, .null⟩

/-- The retry loop of lines 69-123.  `attempt` is the 1-based attempt
counter, `fuel` the number of attempts still allowed including the current
one (the loop starts with `MAX_RETRIES`), `armed` whether the cancellation
timer is still set when this fetch is issued, and `log` accumulates one
`(attempt, armed)` entry per fetch actually performed.  `clearTimeout`
runs after every fetch (lines 73 and 102), so recursive calls pass
`armed := false`.  The `fuel = 0` case is unreachable from `request`. -/
def requestLoop (trace : Nat → AttemptOutcome) :
    Nat → Nat → Bool → List (Nat × Bool) →
    Except JsErr JsValue × List (Nat × Bool)
  | _, 0, _, log => (.error (.api ⟨"Request failed after retries", 500, .null⟩), log)
  | attempt, fuel + 1, armed, log =>
    let log := log ++ [(attempt, armed)]
    match attemptStep (trace attempt) with
    | .ok v => (.ok v, log)
    | .error e =>
      if clientErrorNot429 e then (.error e, log)
      else if e.errorName = "AbortError" then
        (.error (.api ⟨"Request timed out", 408, .null⟩), log)
      else
        match fuel with
        | 0 => (.error (finalize e), log)
        | _ + 1 => requestLoop trace (attempt + 1) fuel false log

/-- Options assembled by the verb helpers for `request`. -/
structure Options where
  method : String
  body : Option String := none
  headers : List (String × String) := []
  timeout : Option Nat := none

/-- The header object of lines 51-56: the three defaults spread first,
then `options.headers`; with JavaScript object-literal semantics a later
binding for the same key overrides an earlier one. -/
def requestHeaders (apiKey : String) (overrides : List (String × String)) :
    List (String × String) :=
  [("Content-Type", "application/json"),
   ("X-API-Key", apiKey),
   ("User-Agent", "@erold/cli/1.0.0")] ++ overrides

/-- Lookup in a header object; a later duplicate key wins, matching
JavaScript object semantics. -/
def headerLookup (hs : List (String × String)) (k : String) : Option String :=
  hs.foldl (fun acc p => if p.1 = k then some p.2 else acc) none

/-- The timer duration `options.timeout || DEFAULT_TIMEOUT`
(a zero override is falsy and falls back to the default). -/
def requestTimeoutMs (opts : Options) : Nat :=
  match opts.timeout with
  | some t => if t = 0 then DEFAULT_TIMEOUT else t
  | none => DEFAULT_TIMEOUT

/-- The request the executor hands to `fetch`: full URL, method, merged
headers, optional serialized body. -/
structure SentRequest where
  url : String
  method : String
  headers : List (String × String)
  body : Option String

/-- Overall outcome of one `request` call: the returned payload or thrown
error, the `(attempt, timer-armed)` log of fetches performed, and the
request shape sent (none when no fetch was issued). -/
structure LoopResult where
  result : Except JsErr JsValue
  fetchLog : List (Nat × Bool)
  sent : Option SentRequest

/-- The `request` function (lines 39-133): fail with ApiError 401 before
any fetch when the apiKey is missing, otherwise run the retry loop with
the timer armed. -/
def request (cfg : ApiConfig) (endpoint : String) (opts : Options)
    (trace : Nat → AttemptOutcome) : LoopResult :=
  if cfg.apiKey = "" then
    ⟨.error (.api ⟨"Not authenticated. Run `erold login` first.", 401, .null⟩),
     [], none⟩
  else
    let out := requestLoop trace 1 MAX_RETRIES true []
    ⟨out.1, out.2,
     some ⟨cfg.apiUrl ++ endpoint, opts.method,
           requestHeaders cfg.apiKey opts.headers, opts.body⟩⟩

/-! The exported HTTP verbs (lines 142-181). -/

/-- Query-parameter filter of line 145:
`value !== undefined && value !== null && value !== ''`. -/
def queryKeep : JsValue → Bool
  | .undefined => false
  | .null => false
  | .str s => s != ""
  | _ => true

/-- The query string built by lines 143-150: filter, stringify, encode,
join with ampersands. -/
def queryString (params : List (String × JsValue)) : String :=
  String.intercalate "&"
    ((params.filter (fun p => queryKeep p.2)).map
      (fun p => formEncode p.1 ++ "=" ++ formEncode (jsToString p.2)))

/-- The URL of line 151: append `?` and the query string only when the
query string is nonempty. -/
def getUrl (endpoint : String) (params : List (String × JsValue)) : String :=
  let qs := queryString params
  if qs = "" then endpoint else endpoint ++ "?" ++ qs

/-- GET (lines 142-154). -/
def get (cfg : ApiConfig) (endpoint : String) (params : List (String × JsValue))
    (trace : Nat → AttemptOutcome) : LoopResult :=
  request cfg (getUrl endpoint params) { method := "GET" } trace

/-- POST (lines 159-164); `data = none` models an omitted argument, which
the JavaScript default parameter replaces by the empty object. -/
def post (cfg : ApiConfig) (endpoint : String) (data : Option JsValue)
    (trace : Nat → AttemptOutcome) : LoopResult :=
  request cfg endpoint
    { method := "POST", body := jsonStringify (data.getD (.obj [])) } trace

/-- PATCH (lines 169-174), same defaulting as POST. -/
def patch (cfg : ApiConfig) (endpoint : String) (data : Option JsValue)
    (trace : Nat → AttemptOutcome) : LoopResult :=
  request cfg endpoint
    { method := "PATCH", body := jsonStringify (data.getD (.obj [])) } trace

/-- DELETE (lines 179-181). -/
def del (cfg : ApiConfig) (endpoint : String)
    (trace : Nat → AttemptOutcome) : LoopResult :=
  request cfg endpoint { method := "DELETE" } trace

/-! Tenant-scoped facades (lines 190-199 and the resource objects). -/

/-- `getTenantPath` (lines 190-199): throw ApiError 400 when no tenant is
configured, otherwise the `/tenants/<tenant>` prefix. -/
def getTenantPath (cfg : ApiConfig) : Except JsErr String :=
  if cfg.tenant = "" then
    .error (.api ⟨"No tenant configured. Run `erold config set tenant <tenant-id>` first.",
                  400, .null⟩)
  else .ok ("/tenants/" ++ cfg.tenant)

/-- `tasks.list` (line 215): the template literal evaluates
`getTenantPath()` before `get` runs, so a missing tenant throws before any
fetch. -/
def tasksList (cfg : ApiConfig) (params : List (String × JsValue))
    (trace : Nat → AttemptOutcome) : LoopResult :=
  match getTenantPath cfg with
  | .error e => ⟨.error e, [], none⟩
  | .ok tp => get cfg (tp ++ "/tasks") params trace

/-- `projects.get` (line 240). -/
def projectsGet (cfg : ApiConfig) (id : String)
    (trace : Nat → AttemptOutcome) : LoopResult :=
  match getTenantPath cfg with
  | .error e => ⟨.error e, [], none⟩
  | .ok tp => get cfg (tp ++ "/projects/" ++ id) [] trace

/-! Predicates used by the theorems, and concrete fixtures mirroring the
test suite (tests/api.test.js). -/

/-- The result of a call is either a payload or an ApiError instance;
a raw error crossing the boundary would falsify this. -/
def resultIsApiShaped : Except JsErr JsValue → Prop
  | .ok _ => True
  | .error (.api _) => True
  | .error (.raw _ _) => False

/-- Whether reading the body of a response succeeds (its `.json()` does
not reject when the content type declares JSON). -/
def bodyReadOk (r : Response) : Bool :=
  match parsedBody r with
  | .ok _ => true
  | .error _ => false

/-- The configuration the test suite mocks. -/
def testConfig : ApiConfig :=
  ⟨"erold_test_key", "https://api.test.com", "test-tenant"⟩

/-- A configuration with no API key. -/
def noKeyConfig : ApiConfig := ⟨"", "https://api.test.com", "test-tenant"⟩

/-- A configuration with no tenant. -/
def noTenantConfig : ApiConfig := ⟨"erold_test_key", "https://api.test.com", ""⟩

/-- A 429 response with a retry-after header, as in the rate-limit test. -/
def response429 : Response :=
  ⟨429, some "application/json", some "60", .ok (.obj []), ""⟩

/-- A 404 response with a JSON error envelope. -/
def response404 : Response :=
  ⟨404, some "application/json", none,
   .ok (.obj [("error", .obj [("message", .str "Not found")])]), ""⟩

/-- A 500 response with a plain-text body. -/
def response500 : Response := ⟨500, none, none, .error "unused", "server error"⟩

/-- A 200 JSON response with the given parsed body. -/
def responseData (v : JsValue) : Response :=
  ⟨200, some "application/json", none, .ok v, ""⟩

/-- An environment returning the same response on every attempt. -/
def constTrace (r : Response) : Nat → AttemptOutcome := fun _ => .response r

/-- An environment whose fetch rejects with AbortError on every attempt. -/
def abortTrace : Nat → AttemptOutcome :=
  fun _ => .fetchError "AbortError" "This operation was aborted"

/-- An environment whose fetch rejects with a network TypeError. -/
def networkFailTrace : Nat → AttemptOutcome :=
  fun _ => .fetchError "TypeError" "fetch failed"

/-- Plain GET options. -/
def getOpts : Options := { method := "GET" }

/-! Theorems. -/

/-- Every error the retry loop produces is an ApiError: the only branch
that rethrows the caught error verbatim is guarded by `clientErrorNot429`,
which holds only for ApiError instances, and every other branch constructs
an ApiError. -/
theorem requestLoop_error_api (trace : Nat → AttemptOutcome) :
    ∀ fuel attempt armed log,
      resultIsApiShaped (requestLoop trace attempt fuel armed log).1 := by
  intro fuel
  induction fuel with
  | zero =>
    intro attempt armed log
    simp [requestLoop, resultIsApiShaped]
  | succ n ih =>
    intro attempt armed log
    rw [requestLoop]
    cases hstep : attemptStep (trace attempt) with
    | ok v => simp [resultIsApiShaped]
    | error e =>
      simp only
      by_cases hce : clientErrorNot429 e
      · cases e with
        | api a => simp [hce, resultIsApiShaped]
        | raw n m => simp [clientErrorNot429] at hce
      · by_cases hab : e.errorName = "AbortError"
        · simp [hce, hab, resultIsApiShaped]
        · cases n with
          | zero =>
            cases e with
            | api a => simp [hce, hab, finalize, resultIsApiShaped]
            | raw nm m => simp [hce, hab, finalize, resultIsApiShaped]
          | succ m =>
            simpa [hce, hab] using ih (attempt + 1) false (log ++ [(attempt, armed)])

/-- Every error `request` produces is an ApiError: the missing-key branch
builds one directly and the loop only produces ApiError values. -/
theorem request_error_api (cfg : ApiConfig) (endpoint : String) (opts : Options)
    (trace : Nat → AttemptOutcome) :
    resultIsApiShaped (request cfg endpoint opts trace).result := by
  unfold request
  by_cases hk : cfg.apiKey = ""
  · simp [hk, resultIsApiShaped]
  · simpa [hk] using requestLoop_error_api trace MAX_RETRIES 1 true []

/-- C1: for every invocation of get, post, patch and del, any failure that
reaches the caller is a single ApiError; no raw network exception, JSON
parse error or abort error crosses the component boundary. -/
theorem c1_failures_are_single_ApiError (cfg : ApiConfig) (endpoint : String)
    (params : List (String × JsValue)) (body : Option JsValue)
    (trace : Nat → AttemptOutcome) :
    resultIsApiShaped (get cfg endpoint params trace).result ∧
    resultIsApiShaped (post cfg endpoint body trace).result ∧
    resultIsApiShaped (patch cfg endpoint body trace).result ∧
    resultIsApiShaped (del cfg endpoint trace).result :=
  ⟨request_error_api _ _ _ _, request_error_api _ _ _ _,
   request_error_api _ _ _ _, request_error_api _ _ _ _⟩

/-- C2: with no API key configured, each verb fails with the 401
not-authenticated ApiError, performs zero fetches, and sends nothing. -/
theorem c2_missing_key_401_no_fetch (cfg : ApiConfig) (endpoint : String)
    (params : List (String × JsValue)) (body : Option JsValue)
    (trace : Nat → AttemptOutcome) (hkey : cfg.apiKey = "") :
    get cfg endpoint params trace =
      ⟨.error (.api ⟨"Not authenticated. Run `erold login` first.", 401, .null⟩),
       [], none⟩ ∧
    post cfg endpoint body trace =
      ⟨.error (.api ⟨"Not authenticated. Run `erold login` first.", 401, .null⟩),
       [], none⟩ ∧
    patch cfg endpoint body trace =
      ⟨.error (.api ⟨"Not authenticated. Run `erold login` first.", 401, .null⟩),
       [], none⟩ ∧
    del cfg endpoint trace =
      ⟨.error (.api ⟨"Not authenticated. Run `erold login` first.", 401, .null⟩),
       [], none⟩ := by
  refine ⟨?_, ?_, ?_, ?_⟩ <;> simp [get, post, patch, del, request, hkey]

/-- Witness for C2 at the concrete no-key configuration. -/
theorem c2_missing_key_401_no_fetch_witness :
    noKeyConfig.apiKey = "" ∧
    get noKeyConfig "/test" [] networkFailTrace =
      ⟨.error (.api ⟨"Not authenticated. Run `erold login` first.", 401, .null⟩),
       [], none⟩ :=
  ⟨rfl, (c2_missing_key_401_no_fetch noKeyConfig "/test" [] none
           networkFailTrace rfl).1⟩

/-- A 429 response whose body reads successfully maps to the rate-limit
ApiError naming the retry-after wait (default 60). -/
theorem attemptStep_429 (r : Response) (h429 : r.status = 429)
    (hok : bodyReadOk r = true) :
    attemptStep (.response r) =
      .error (.api ⟨"Rate limited. Try again in " ++ retryAfterValue r ++ " seconds.",
                    429, .null⟩) := by
  unfold bodyReadOk at hok
  unfold attemptStep
  cases hp : parsedBody r with
  | ok data => simp [hp, h429]
  | error e => simp [hp] at hok

/-- C3: when every attempt of a call receives HTTP 429 (with a readable
body), the executor performs exactly MAX_RETRIES = 3 fetches and then
throws an ApiError with statusCode 429 whose message contains
"Rate limited" and names the retry-after wait of the final response,
"60" when the header is absent. -/
theorem c3_rate_limited_retries_three_then_429 (cfg : ApiConfig)
    (endpoint : String) (opts : Options) (trace : Nat → AttemptOutcome)
    (r : Nat → Response) (hkey : cfg.apiKey ≠ "")
    (h : ∀ n, 1 ≤ n → n ≤ 3 → trace n = .response (r n) ∧
         (r n).status = 429 ∧ bodyReadOk (r n) = true) :
    (request cfg endpoint opts trace).result =
      .error (.api ⟨"Rate limited. Try again in " ++ retryAfterValue (r 3) ++ " seconds.",
                    429, .null⟩) ∧
    (request cfg endpoint opts trace).fetchLog.length = 3 ∧
    ((r 3).retryAfter = none → retryAfterValue (r 3) = "60") := by
  have h1 := h 1 (by norm_num) (by norm_num)
  have h2 := h 2 (by norm_num) (by norm_num)
  have h3 := h 3 (by norm_num) (by norm_num)
  have s1 := attemptStep_429 (r 1) h1.2.1 h1.2.2
  have s2 := attemptStep_429 (r 2) h2.2.1 h2.2.2
  have s3 := attemptStep_429 (r 3) h3.2.1 h3.2.2
  have hra : ∀ n, (r n).retryAfter = none → retryAfterValue (r n) = "60" := by
    intro n hn
    simp [retryAfterValue, hn]
  refine ⟨?_, ?_, hra 3⟩ <;>
    simp [request, hkey, MAX_RETRIES, requestLoop, h1.1, h2.1, h3.1, s1, s2, s3,
          clientErrorNot429, JsErr.errorName, finalize]

/-- Witness for C3: three 429 responses with retry-after 60 yield the 429
rate-limit error after three fetches. -/
theorem c3_rate_limited_retries_three_then_429_witness :
    testConfig.apiKey ≠ "" ∧
    (∀ n, 1 ≤ n → n ≤ 3 → constTrace response429 n = .response response429 ∧
      response429.status = 429 ∧ bodyReadOk response429 = true) ∧
    (request testConfig "/test" getOpts (constTrace response429)).result =
      .error (.api ⟨"Rate limited. Try again in " ++ retryAfterValue response429 ++ " seconds.",
                    429, .null⟩) ∧
    (request testConfig "/test" getOpts (constTrace response429)).fetchLog.length = 3 :=
  have hbody : bodyReadOk response429 = true := by decide
  have hkey : testConfig.apiKey ≠ "" := by simp [testConfig]
  have hh : ∀ n, 1 ≤ n → n ≤ 3 →
      constTrace response429 n = .response response429 ∧
      response429.status = 429 ∧ bodyReadOk response429 = true :=
    fun n _ _ => ⟨rfl, rfl, hbody⟩
  ⟨hkey, hh,
   (c3_rate_limited_retries_three_then_429 testConfig "/test" getOpts
      (constTrace response429) (fun _ => response429) hkey hh).1,
   (c3_rate_limited_retries_three_then_429 testConfig "/test" getOpts
      (constTrace response429) (fun _ => response429) hkey hh).2.1⟩

/-- A response whose status is 4xx but not 429 and whose body reads
successfully maps to the classified ApiError for that status. -/
theorem attemptStep_4xx (r : Response) (data : JsValue)
    (hp : parsedBody r = .ok data) (h4 : 400 ≤ r.status) (h5 : r.status < 500)
    (h429 : r.status ≠ 429) :
    attemptStep (.response r) =
      .error (.api (mkApiError (httpErrorMessage data r.status) r.status
                     ((data.getOpt "error").getOpt "details"))) := by
  have h299 : ¬ r.status ≤ 299 := by omega
  simp [attemptStep, hp, h429, h299]

/-- C4: a 4xx response other than 429 on the first attempt is thrown
immediately as the classified ApiError, after exactly one fetch. -/
theorem c4_client_error_no_retry (cfg : ApiConfig) (endpoint : String)
    (opts : Options) (trace : Nat → AttemptOutcome) (r : Response)
    (data : JsValue) (hkey : cfg.apiKey ≠ "") (h1 : trace 1 = .response r)
    (hp : parsedBody r = .ok data) (h4 : 400 ≤ r.status) (h5 : r.status < 500)
    (h429 : r.status ≠ 429) :
    (request cfg endpoint opts trace).result =
      .error (.api (mkApiError (httpErrorMessage data r.status) r.status
                     ((data.getOpt "error").getOpt "details"))) ∧
    (request cfg endpoint opts trace).fetchLog.length = 1 := by
  have s1 := attemptStep_4xx r data hp h4 h5 h429
  have hce : clientErrorNot429
      (.api (mkApiError (httpErrorMessage data r.status) r.status
               ((data.getOpt "error").getOpt "details"))) = true := by
    simp only [clientErrorNot429, mkApiError, Bool.and_eq_true, decide_eq_true_eq,
               bne_iff_ne, ne_eq]
    omega
  constructor <;>
    simp [request, hkey, MAX_RETRIES, requestLoop, h1, s1, hce]

/-- Witness for C4 at the concrete 404 response of the test suite. -/
theorem c4_client_error_no_retry_witness :
    testConfig.apiKey ≠ "" ∧
    constTrace response404 1 = .response response404 ∧
    parsedBody response404 =
      .ok (.obj [("error", .obj [("message", .str "Not found")])]) ∧
    (request testConfig "/test" getOpts (constTrace response404)).result =
      .error (.api ⟨"Not found", 404, .null⟩) ∧
    (request testConfig "/test" getOpts (constTrace response404)).fetchLog.length = 1 := by
  have hp : parsedBody response404 =
      .ok (.obj [("error", .obj [("message", .str "Not found")])]) := by rfl
  refine ⟨by simp [testConfig], rfl, hp, ?_, ?_⟩
  · have := (c4_client_error_no_retry testConfig "/test" getOpts
      (constTrace response404) response404
      (.obj [("error", .obj [("message", .str "Not found")])])
      (by simp [testConfig]) rfl hp (by norm_num [response404])
      (by norm_num [response404]) (by norm_num [response404])).1
    simpa using this
  · exact (c4_client_error_no_retry testConfig "/test" getOpts
      (constTrace response404) response404
      (.obj [("error", .obj [("message", .str "Not found")])])
      (by simp [testConfig]) rfl hp (by norm_num [response404])
      (by norm_num [response404]) (by norm_num [response404])).2

/-- Every fetch the loop logs beyond the entry attempt runs with the
timer cleared: each recursive call passes `armed := false` because
`clearTimeout` has run (lines 73 and 102 of api.js). -/
theorem requestLoop_log_armed (trace : Nat → AttemptOutcome) :
    ∀ fuel attempt armed log,
      ∀ p ∈ (requestLoop trace attempt fuel armed log).2,
        p ∈ log ∨ (p.1 = attempt ∧ p.2 = armed) ∨ (attempt < p.1 ∧ p.2 = false) := by
  intro fuel
  induction fuel with
  | zero =>
    intro attempt armed log p hp
    simp only [requestLoop] at hp
    exact Or.inl hp
  | succ n ih =>
    intro attempt armed log p hp
    rw [requestLoop] at hp
    have hbase : p ∈ log ++ [(attempt, armed)] →
        p ∈ log ∨ (p.1 = attempt ∧ p.2 = armed) ∨ (attempt < p.1 ∧ p.2 = false) := by
      intro hmem
      rcases List.mem_append.1 hmem with h | h
      · exact Or.inl h
      · simp at h
        exact Or.inr (Or.inl ⟨by simp [h], by simp [h]⟩)
    cases hstep : attemptStep (trace attempt) with
    | ok v =>
      rw [hstep] at hp
      exact hbase hp
    | error e =>
      rw [hstep] at hp
      by_cases hce : clientErrorNot429 e
      · simp only [hce, if_true] at hp
        exact hbase hp
      · by_cases hab : e.errorName = "AbortError"
        · simp only [hce, hab, if_false, if_true] at hp
          exact hbase hp
        · cases n with
          | zero =>
            simp only [hce, hab, if_false] at hp
            exact hbase hp
          | succ m =>
            simp only [hce, hab, if_false] at hp
            rcases ih (attempt + 1) false (log ++ [(attempt, armed)]) p hp with
              h | h | h
            · exact hbase h
            · exact Or.inr (Or.inr ⟨by omega, h.2⟩)
            · exact Or.inr (Or.inr ⟨by omega, h.2⟩)

/-- C5, amended: the cancellation timer is `options.timeout` with a
30-second default, but it governs only the first attempt; `clearTimeout`
runs once that fetch settles, so every retry fetch runs with the timer
disarmed.  An attempt cancelled by the abort signal fails immediately with
ApiError(408, "Request timed out") after a single fetch, with no retry. -/
theorem c5_timeout_first_attempt_only (cfg : ApiConfig) (endpoint : String)
    (opts : Options) (trace : Nat → AttemptOutcome) (msg : String)
    (hkey : cfg.apiKey ≠ "") :
    (opts.timeout = none → requestTimeoutMs opts = DEFAULT_TIMEOUT) ∧
    (∀ p ∈ (request cfg endpoint opts trace).fetchLog, p.2 = true ↔ p.1 = 1) ∧
    (trace 1 = .fetchError "AbortError" msg →
      (request cfg endpoint opts trace).result =
        .error (.api ⟨"Request timed out", 408, .null⟩) ∧
      (request cfg endpoint opts trace).fetchLog = [(1, true)]) := by
  refine ⟨?_, ?_, ?_⟩
  · intro h
    simp [requestTimeoutMs, h]
  · intro p hp
    have hlog : (request cfg endpoint opts trace).fetchLog =
        (requestLoop trace 1 MAX_RETRIES true []).2 := by
      simp [request, hkey]
    rw [hlog] at hp
    rcases requestLoop_log_armed trace MAX_RETRIES 1 true [] p hp with h | h | h
    · simp at h
    · constructor <;> (intro; simp [h.1, h.2])
    · constructor
      · intro hpt
        rw [hpt] at h
        simp at h
      · intro hp1
        omega
  · intro habort
    have hstep : attemptStep (trace 1) = .error (.raw "AbortError" msg) := by
      rw [habort]; rfl
    constructor <;>
      simp [request, hkey, MAX_RETRIES, requestLoop, hstep, clientErrorNot429,
            JsErr.errorName]

/-- Witness for C5 amended: an aborted first fetch yields the 408 timeout
error after exactly one fetch. -/
theorem c5_timeout_first_attempt_only_witness :
    testConfig.apiKey ≠ "" ∧
    abortTrace 1 = .fetchError "AbortError" "This operation was aborted" ∧
    (request testConfig "/test" getOpts abortTrace).result =
      .error (.api ⟨"Request timed out", 408, .null⟩) ∧
    (request testConfig "/test" getOpts abortTrace).fetchLog = [(1, true)] := by
  have hkey : testConfig.apiKey ≠ "" := by simp [testConfig]
  have h := (c5_timeout_first_attempt_only testConfig "/test" getOpts abortTrace
    "This operation was aborted" hkey).2.2 rfl
  exact ⟨hkey, rfl, h.1, h.2⟩

/-- C5 as stated is false: on a call whose first attempt returns a 500
response, the second and third fetches are issued with the cancellation
timer already cleared, so no timer governs them while they are in
flight. -/
theorem c5_timer_all_attempts_counterexample :
    (request testConfig "/test" getOpts (constTrace response500)).fetchLog =
      [(1, true), (2, false), (3, false)] ∧
    ¬ (∀ p ∈ (request testConfig "/test" getOpts (constTrace response500)).fetchLog,
        p.2 = true) := by
  have hlog : (request testConfig "/test" getOpts (constTrace response500)).fetchLog =
      [(1, true), (2, false), (3, false)] := by rfl
  refine ⟨hlog, ?_⟩
  intro h
  have := h (2, false) (by rw [hlog]; simp)
  simp at this

/-- A value other than `undefined` fails the `isUndefined` test. -/
theorem isUndefined_eq_false {v : JsValue} (h : v ≠ .undefined) :
    v.isUndefined = false := by
  cases v <;> simp [JsValue.isUndefined] at *

/-- A 2xx response returns the unwrapped parsed body. -/
theorem attemptStep_2xx (r : Response) (body : JsValue)
    (hp : parsedBody r = .ok body) (h2 : 200 ≤ r.status) (h3 : r.status ≤ 299) :
    attemptStep (.response r) = .ok (unwrap body) := by
  have h429 : r.status ≠ 429 := by omega
  simp [attemptStep, hp, h429, h2, h3]

/-- C6: a successful response whose parsed body carries a `data` field
returns exactly that field; a successful response without a `data` field
returns the parsed body unchanged; and unwrap inverts the envelope
(unwrap of wrap X is X). -/
theorem c6_envelope_unwrap (cfg : ApiConfig) (endpoint : String)
    (opts : Options) (trace : Nat → AttemptOutcome) (r : Response)
    (body X : JsValue) (hkey : cfg.apiKey ≠ "") (h1 : trace 1 = .response r)
    (h2 : 200 ≤ r.status) (h3 : r.status ≤ 299)
    (hp : parsedBody r = .ok body) :
    (body.getOpt "data" = X → X ≠ .undefined →
       (request cfg endpoint opts trace).result = .ok X) ∧
    ((body.getOpt "data").isUndefined = true →
       (request cfg endpoint opts trace).result = .ok body) ∧
    (∀ Y : JsValue, Y ≠ .undefined → unwrap (.obj [("data", Y)]) = Y) := by
  have hstep : attemptStep (trace 1) = .ok (unwrap body) := by
    rw [h1]; exact attemptStep_2xx r body hp h2 h3
  have hres : (request cfg endpoint opts trace).result = .ok (unwrap body) := by
    simp [request, hkey, MAX_RETRIES, requestLoop, hstep]
  refine ⟨?_, ?_, ?_⟩
  · intro hd hX
    rw [hres]
    simp [unwrap, hd, isUndefined_eq_false hX]
  · intro hd
    rw [hres]
    simp [unwrap, hd]
  · intro Y hY
    simp [unwrap, JsValue.getOpt, lookupLast, isUndefined_eq_false hY]

/-- Witness for C6 on the test fixture: a 200 response enveloping
an object payload returns the payload alone. -/
theorem c6_envelope_unwrap_witness :
    testConfig.apiKey ≠ "" ∧
    parsedBody (responseData (.obj [("data", .obj [("id", .str "123")])])) =
      .ok (.obj [("data", .obj [("id", .str "123")])]) ∧
    (request testConfig "/test" getOpts
        (constTrace (responseData (.obj [("data", .obj [("id", .str "123")])])))).result =
      .ok (.obj [("id", .str "123")]) := by
  have hkey : testConfig.apiKey ≠ "" := by simp [testConfig]
  have hp : parsedBody (responseData (.obj [("data", .obj [("id", .str "123")])])) =
      .ok (.obj [("data", .obj [("id", .str "123")])]) := by rfl
  refine ⟨hkey, hp, ?_⟩
  exact (c6_envelope_unwrap testConfig "/test" getOpts
      (constTrace (responseData (.obj [("data", .obj [("id", .str "123")])])))
      (responseData (.obj [("data", .obj [("id", .str "123")])]))
      (.obj [("data", .obj [("id", .str "123")])]) (.obj [("id", .str "123")])
      hkey rfl (by norm_num [responseData]) (by norm_num [responseData]) hp).1
    (by simp [JsValue.getOpt, lookupLast]) (by simp)

/-- C7: filtered-out query values (failing the keep test, in particular
`null`, `undefined` and the empty string) contribute nothing to the URL,
and the two concrete scenarios build the documented request URLs with the
query suffix present exactly when a parameter survives. -/
theorem c7_query_string_building (cfg : ApiConfig) (endpoint : String)
    (trace : Nat → AttemptOutcome) (pre post : List (String × JsValue))
    (k : String) (v : JsValue) (hkey : cfg.apiKey ≠ "") :
    (queryKeep v = false →
      getUrl endpoint (pre ++ (k, v) :: post) = getUrl endpoint (pre ++ post)) ∧
    (v = .null ∨ v = .undefined ∨ v = .str "" → queryKeep v = false) ∧
    (get cfg "/test" [("status", .str "active"), ("limit", .num 10)] trace).sent =
      some ⟨cfg.apiUrl ++ "/test?status=active&limit=10", "GET",
            requestHeaders cfg.apiKey [], none⟩ ∧
    (get cfg "/test" [("status", .str "active"), ("foo", .null)] trace).sent =
      some ⟨cfg.apiUrl ++ "/test?status=active", "GET",
            requestHeaders cfg.apiKey [], none⟩ := by
  refine ⟨?_, ?_, ?_, ?_⟩
  · intro hv
    simp [getUrl, queryString, List.filter_append, hv]
  · rintro (rfl | rfl | rfl) <;> simp [queryKeep]
  · have hurl : getUrl "/test" [("status", .str "active"), ("limit", .num 10)] =
        "/test?status=active&limit=10" := by
      simp only [getUrl, queryString, queryKeep, jsToString]
      rfl
    simp [get, request, hkey, hurl]
  · have hurl : getUrl "/test" [("status", .str "active"), ("foo", .null)] =
        "/test?status=active" := by
      simp only [getUrl, queryString, queryKeep, jsToString]
      rfl
    simp [get, request, hkey, hurl]

/-- Witness for C7: with the test configuration the GET URL for
`/test` with an active status and limit 10 is the documented one. -/
theorem c7_query_string_building_witness :
    testConfig.apiKey ≠ "" ∧
    (get testConfig "/test" [("status", .str "active"), ("limit", .num 10)]
        (constTrace (responseData (.obj [("data", .arr [])])))).sent =
      some ⟨"https://api.test.com/test?status=active&limit=10", "GET",
            requestHeaders "erold_test_key" [], none⟩ := by
  have hkey : testConfig.apiKey ≠ "" := by simp [testConfig]
  have h := (c7_query_string_building testConfig "/test"
      (constTrace (responseData (.obj [("data", .arr [])]))) [] []
      "status" (.str "active") hkey).2.2.1
  exact ⟨hkey, h⟩

/-- The query suffix attaches to the right of a composed endpoint. -/
theorem getUrl_append (a b : String) (params : List (String × JsValue)) :
    getUrl (a ++ b) params = a ++ getUrl b params := by
  unfold getUrl
  by_cases h : queryString params = ""
  · simp [h]
  · simp [h, String.append_assoc]

/-- C8: tenant-scoped facade calls (tasks.list, projects.get) with no
tenant configured throw the 400 missing-tenant ApiError with zero fetches
and nothing sent; with a tenant configured their request URLs carry the
`/tenants/` prefix followed by the tenant. -/
theorem c8_tenant_scoped_facades (cfg : ApiConfig)
    (params : List (String × JsValue)) (id : String)
    (trace : Nat → AttemptOutcome) :
    (cfg.tenant = "" →
      tasksList cfg params trace =
        ⟨.error (.api ⟨"No tenant configured. Run `erold config set tenant <tenant-id>` first.",
                       400, .null⟩), [], none⟩ ∧
      projectsGet cfg id trace =
        ⟨.error (.api ⟨"No tenant configured. Run `erold config set tenant <tenant-id>` first.",
                       400, .null⟩), [], none⟩) ∧
    (cfg.tenant ≠ "" → cfg.apiKey ≠ "" →
      ∃ rest₁ rest₂,
        (tasksList cfg params trace).sent =
          some ⟨cfg.apiUrl ++ (("/tenants/" ++ cfg.tenant) ++ rest₁), "GET",
                requestHeaders cfg.apiKey [], none⟩ ∧
        (projectsGet cfg id trace).sent =
          some ⟨cfg.apiUrl ++ (("/tenants/" ++ cfg.tenant) ++ rest₂), "GET",
                requestHeaders cfg.apiKey [], none⟩) := by
  constructor
  · intro ht
    constructor <;> simp [tasksList, projectsGet, getTenantPath, ht]
  · intro ht hkey
    refine ⟨getUrl "/tasks" params, "/projects/" ++ id, ?_, ?_⟩
    · have h1 : getUrl (("/tenants/" ++ cfg.tenant) ++ "/tasks") params =
          ("/tenants/" ++ cfg.tenant) ++ getUrl "/tasks" params :=
        getUrl_append _ _ params
      simp [tasksList, getTenantPath, ht, get, request, hkey, h1]
    · have h2 : ∀ e : String, getUrl e [] = e := fun e => rfl
      simp [projectsGet, getTenantPath, ht, get, request, hkey, h2,
            String.append_assoc]

/-- Witness for C8 at the no-tenant configuration and the test
configuration. -/
theorem c8_tenant_scoped_facades_witness :
    noTenantConfig.tenant = "" ∧
    tasksList noTenantConfig [] networkFailTrace =
      ⟨.error (.api ⟨"No tenant configured. Run `erold config set tenant <tenant-id>` first.",
                     400, .null⟩), [], none⟩ ∧
    testConfig.tenant ≠ "" ∧
    (∃ rest₁ rest₂,
      (tasksList testConfig [] networkFailTrace).sent =
        some ⟨testConfig.apiUrl ++ (("/tenants/" ++ testConfig.tenant) ++ rest₁), "GET",
              requestHeaders testConfig.apiKey [], none⟩ ∧
      (projectsGet testConfig "proj-1" networkFailTrace).sent =
        some ⟨testConfig.apiUrl ++ (("/tenants/" ++ testConfig.tenant) ++ rest₂), "GET",
              requestHeaders testConfig.apiKey [], none⟩) := by
  have ht : testConfig.tenant ≠ "" := by simp [testConfig]
  have hkey : testConfig.apiKey ≠ "" := by simp [testConfig]
  refine ⟨rfl, ?_, ht, ?_⟩
  · exact (c8_tenant_scoped_facades noTenantConfig [] "x" networkFailTrace).1 rfl |>.1
  · exact (c8_tenant_scoped_facades testConfig [] "proj-1" networkFailTrace).2 ht hkey

/-- Fold characterization of header lookup: a fold started from any
accumulator either finds the last matching binding or returns the
accumulator. -/
theorem headerLookup_foldl (k : String) (ys : List (String × String)) :
    ∀ acc, ys.foldl (fun acc p => if p.1 = k then some p.2 else acc) acc =
      match ys.foldl (fun acc p => if p.1 = k then some p.2 else acc) none with
      | some v => some v
      | none => acc := by
  induction ys with
  | nil => intro acc; rfl
  | cons p t ih =>
    intro acc
    simp only [List.foldl_cons]
    rw [ih, ih (if p.1 = k then some p.2 else none)]
    cases hF : t.foldl (fun acc p => if p.1 = k then some p.2 else acc) none with
    | some v => simp
    | none => by_cases hp : p.1 = k <;> simp [hp]

/-- Header lookup across the object-spread concatenation: a binding in the
overrides wins, otherwise the defaults answer. -/
theorem headerLookup_append (xs ys : List (String × String)) (k : String) :
    headerLookup (xs ++ ys) k =
      match headerLookup ys k with
      | some v => some v
      | none => headerLookup xs k := by
  unfold headerLookup
  rw [List.foldl_append]
  exact headerLookup_foldl k ys _

/-- C9, amended: every request issued through get, post, patch and del
carries exactly the three default headers (those operations pass no
overrides); at the `request` level the three default header names are
always present and keep their default values whenever the overrides do
not bind the same name, but an override that does bind one of the three
names replaces the default value. -/
theorem c9_default_headers (cfg : ApiConfig) (endpoint : String)
    (params : List (String × JsValue)) (body : Option JsValue)
    (trace : Nat → AttemptOutcome) (ov : List (String × String))
    (hkey : cfg.apiKey ≠ "") :
    ((get cfg endpoint params trace).sent =
       some ⟨cfg.apiUrl ++ getUrl endpoint params, "GET",
             requestHeaders cfg.apiKey [], none⟩ ∧
     (post cfg endpoint body trace).sent =
       some ⟨cfg.apiUrl ++ endpoint, "POST", requestHeaders cfg.apiKey [],
             jsonStringify (body.getD (.obj []))⟩ ∧
     (patch cfg endpoint body trace).sent =
       some ⟨cfg.apiUrl ++ endpoint, "PATCH", requestHeaders cfg.apiKey [],
             jsonStringify (body.getD (.obj []))⟩ ∧
     (del cfg endpoint trace).sent =
       some ⟨cfg.apiUrl ++ endpoint, "DELETE", requestHeaders cfg.apiKey [],
             none⟩) ∧
    ((headerLookup (requestHeaders cfg.apiKey ov) "Content-Type").isSome ∧
     (headerLookup (requestHeaders cfg.apiKey ov) "X-API-Key").isSome ∧
     (headerLookup (requestHeaders cfg.apiKey ov) "User-Agent").isSome) ∧
    (headerLookup ov "Content-Type" = none →
      headerLookup (requestHeaders cfg.apiKey ov) "Content-Type" =
        some "application/json") ∧
    (headerLookup ov "X-API-Key" = none →
      headerLookup (requestHeaders cfg.apiKey ov) "X-API-Key" =
        some cfg.apiKey) ∧
    (headerLookup ov "User-Agent" = none →
      headerLookup (requestHeaders cfg.apiKey ov) "User-Agent" =
        some "@erold/cli/1.0.0") := by
  have hCT := headerLookup_append
    [("Content-Type", "application/json"), ("X-API-Key", cfg.apiKey),
     ("User-Agent", "@erold/cli/1.0.0")] ov "Content-Type"
  have hXK := headerLookup_append
    [("Content-Type", "application/json"), ("X-API-Key", cfg.apiKey),
     ("User-Agent", "@erold/cli/1.0.0")] ov "X-API-Key"
  have hUA := headerLookup_append
    [("Content-Type", "application/json"), ("X-API-Key", cfg.apiKey),
     ("User-Agent", "@erold/cli/1.0.0")] ov "User-Agent"
  refine ⟨⟨?_, ?_, ?_, ?_⟩, ⟨?_, ?_, ?_⟩, ?_, ?_, ?_⟩
  · simp [get, request, hkey]
  · simp [post, request, hkey]
  · simp [patch, request, hkey]
  · simp [del, request, hkey]
  · rw [requestHeaders, hCT]
    cases headerLookup ov "Content-Type" <;>
      simp [headerLookup]
  · rw [requestHeaders, hXK]
    cases headerLookup ov "X-API-Key" <;>
      simp [headerLookup]
  · rw [requestHeaders, hUA]
    cases headerLookup ov "User-Agent" <;>
      simp [headerLookup]
  · intro hnone
    rw [requestHeaders, hCT, hnone]
    simp [headerLookup]
  · intro hnone
    rw [requestHeaders, hXK, hnone]
    simp [headerLookup]
  · intro hnone
    rw [requestHeaders, hUA, hnone]
    simp [headerLookup]

/-- Witness for C9 amended at the test configuration with an unrelated
override. -/
theorem c9_default_headers_witness :
    testConfig.apiKey ≠ "" ∧
    headerLookup [("X-Extra", "1")] "Content-Type" = none ∧
    (get testConfig "/test" [] networkFailTrace).sent =
      some ⟨"https://api.test.com/test", "GET",
            requestHeaders "erold_test_key" [], none⟩ ∧
    headerLookup (requestHeaders "erold_test_key" [("X-Extra", "1")])
      "Content-Type" = some "application/json" := by
  have hkey : testConfig.apiKey ≠ "" := by simp [testConfig]
  have h := c9_default_headers testConfig "/test" [] none networkFailTrace
    [("X-Extra", "1")] hkey
  exact ⟨hkey, rfl, h.1.1, h.2.2.1 rfl⟩

/-- C9 as stated is false: a caller-supplied override with the same name
replaces a default, because the spread of `options.headers` comes after
the defaults in the object literal; a request issued with a Content-Type
override carries the override value, not application/json. -/
theorem c9_overrides_replace_defaults_counterexample :
    (request testConfig "/test"
        { method := "GET", headers := [("Content-Type", "text/plain")] }
        networkFailTrace).sent.map
      (fun s => headerLookup s.headers "Content-Type") =
      some (some "text/plain") ∧
    ¬ ((request testConfig "/test"
          { method := "GET", headers := [("Content-Type", "text/plain")] }
          networkFailTrace).sent.map
        (fun s => headerLookup s.headers "Content-Type") =
        some (some "application/json")) := by
  constructor
  · rfl
  · intro h
    have h1 : (request testConfig "/test"
        { method := "GET", headers := [("Content-Type", "text/plain")] }
        networkFailTrace).sent.map
        (fun s => headerLookup s.headers "Content-Type") =
        some (some "text/plain") := rfl
    rw [h1] at h
    simp at h

/-- C10: post and patch with the body argument omitted serialize the
defaulted empty object and send the two-character body, not an absent
one. -/
theorem c10_omitted_body_sends_empty_object (cfg : ApiConfig)
    (endpoint : String) (trace : Nat → AttemptOutcome)
    (hkey : cfg.apiKey ≠ "") :
    jsonStringify (.obj []) = some "\x7b\x7d" ∧
    (post cfg endpoint none trace).sent =
      some ⟨cfg.apiUrl ++ endpoint, "POST", requestHeaders cfg.apiKey [],
            some "\x7b\x7d"⟩ ∧
    (patch cfg endpoint none trace).sent =
      some ⟨cfg.apiUrl ++ endpoint, "PATCH", requestHeaders cfg.apiKey [],
            some "\x7b\x7d"⟩ := by
  have hjson : jsonStringify (.obj []) = some "\x7b\x7d" := by
    simp only [jsonStringify, jsonStringifyFields]
    rfl
  refine ⟨hjson, ?_, ?_⟩ <;>
    simp [post, patch, request, hkey, hjson]

/-- Witness for C10 at the test configuration. -/
theorem c10_omitted_body_sends_empty_object_witness :
    testConfig.apiKey ≠ "" ∧
    (post testConfig "/test" none networkFailTrace).sent =
      some ⟨"https://api.test.com/test", "POST",
            requestHeaders "erold_test_key" [], some "\x7b\x7d"⟩ := by
  have hkey : testConfig.apiKey ≠ "" := by simp [testConfig]
  exact ⟨hkey,
    (c10_omitted_body_sends_empty_object testConfig "/test"
      networkFailTrace hkey).2.1⟩

end ApiSpec
